import Mathlib

/-!
# Verification of the blogicum blog application

Shallow embedding of the blog app of this repository (models.py, managers.py,
forms.py, views.py) as executable Lean definitions, together with theorems
checking the natural-language specification against the code.

Conventions of the embedding:
* timestamps are integers; the current time is passed explicitly as a parameter;
* the relational store is a structure of lists of records, and foreign keys are
  record ids (an Option id when the column is nullable);
* a request's user is a Viewer: either anonymous or an authenticated user id;
* each view operation is a function from the store and the request data to an
  explicit result value; results that can leave the store changed carry the
  resulting store.
-/

namespace Blogicum

/-- The auth user model (django.contrib.auth): username and contact fields. -/
structure User where
  id : Nat
  username : String
  first_name : String
  last_name : String
  email : String
deriving DecidableEq

/-- blog.models.Category: title, description, unique slug, publication flag. -/
structure Category where
  id : Nat
  title : String
  description : String
  slug : String
  is_published : Bool
  created_at : Int
deriving DecidableEq

/-- blog.models.Location: a named place with a publication flag. -/
structure Location where
  id : Nat
  name : String
  is_published : Bool
  created_at : Int
deriving DecidableEq

/-- blog.models.Post: title, text, publication date, nullable author, nullable
category (SET_NULL on category deletion), nullable location, optional image,
publication flag. -/
structure Post where
  id : Nat
  title : String
  text : String
  pub_date : Int
  author : Option Nat
  category : Option Nat
  location : Option Nat
  image : Option String
  is_published : Bool
  created_at : Int
deriving DecidableEq

/-- blog.models.Comment: text (max 120 chars, enforced by the form), the
commented post (CASCADE), the author, and the creation time (auto_now_add). -/
structure Comment where
  id : Nat
  text : String
  post : Nat
  author : Nat
  created_at : Int
deriving DecidableEq

/-- The relational store: one list per model plus fresh-id counters used when
inserting new Post and Comment rows. -/
structure Db where
  users : List User
  categories : List Category
  locations : List Location
  posts : List Post
  comments : List Comment
  nextPostId : Nat
  nextCommentId : Nat
deriving DecidableEq

/-- The requesting user of a view: anonymous or an authenticated user id. -/
inductive Viewer where
  | anonymous
  | user (id : Nat)
deriving DecidableEq

def findUser (db : Db) (uid : Nat) : Option User :=
  db.users.find? (fun u => u.id == uid)

def findCategory (db : Db) (cid : Nat) : Option Category :=
  db.categories.find? (fun c => c.id == cid)

def findLocation (db : Db) (lid : Nat) : Option Location :=
  db.locations.find? (fun l => l.id == lid)

def findPost (db : Db) (pid : Nat) : Option Post :=
  db.posts.find? (fun p => p.id == pid)

def findComment (db : Db) (cid : Nat) : Option Comment :=
  db.comments.find? (fun c => c.id == cid)

/-- Django object equality between post.author (nullable FK) and request.user:
true exactly when the request is authenticated and the ids agree. An anonymous
user never equals a User row, and a null author never equals the request user. -/
def viewerIsAuthor (v : Viewer) (a : Option Nat) : Bool :=
  match v, a with
  | Viewer.user uid, some aid => uid == aid
  | _, _ => false

/-- Object equality between comment.author (non-nullable FK) and request.user. -/
def viewerIsUser (v : Viewer) (uid : Nat) : Bool :=
  match v with
  | Viewer.user w => w == uid
  | Viewer.anonymous => false

/-- request.user.username: Django's AnonymousUser has the empty username. -/
def viewerUsername (db : Db) (v : Viewer) : String :=
  match v with
  | Viewer.anonymous => ""
  | Viewer.user uid =>
    match findUser db uid with
    | some u => u.username
    | none => ""

/-- The Count aggregation over the comments relation: the number of comments
whose post FK is the given id. -/
def postCommentCount (db : Db) (pid : Nat) : Nat :=
  (db.comments.filter (fun c => c.post == pid)).length

/-- The category__is_published=True join condition: the post has a category and
that category is published. A post with a null category fails the condition. -/
def categoryPublished (db : Db) (p : Post) : Bool :=
  match p.category with
  | some cid =>
    match findCategory db cid with
    | some c => c.is_published
    | none => false
  | none => false

/-- The row condition of PostManager.get_queryset (managers.py): is_published,
category published, and pub_date strictly before the current time
(pub_date__lt=timezone.now()). -/
def publicVisible (db : Db) (now : Int) (p : Post) : Bool :=
  p.is_published && categoryPublished db p && decide (p.pub_date < now)

/-- The public visibility condition as the specification words it, with
pub_date at or before the current time (pub_date less than OR EQUAL to now).
Kept separate from publicVisible so the two can be compared. -/
def specPublicVisible (db : Db) (now : Int) (p : Post) : Bool :=
  p.is_published && categoryPublished db p && decide (p.pub_date ≤ now)

/-- The order_by of the public queryset: newest first by pub_date. -/
def newestFirst (a b : Post) : Prop :=
  b.pub_date ≤ a.pub_date

instance : DecidableRel newestFirst :=
  fun a b => inferInstanceAs (Decidable (b.pub_date ≤ a.pub_date))

instance : IsTotal Post newestFirst :=
  ⟨fun a b => le_total b.pub_date a.pub_date⟩

instance : IsTrans Post newestFirst :=
  ⟨fun _ _ _ h1 h2 => le_trans h2 h1⟩

/-- A post row together with its comment_count annotation. -/
structure AnnotatedPost where
  post : Post
  comment_count : Nat
deriving DecidableEq

/-- The annotate(comment_count=Count('comments')) step applied to a row list. -/
def annotateAll (db : Db) (ps : List Post) : List AnnotatedPost :=
  ps.map (fun p => { post := p, comment_count := postCommentCount db p.id })

/-- Post.manager.all(): PostManager.get_queryset of managers.py. Rows passing
the public visibility condition, ordered newest first, with comment counts. -/
def publicQueryset (db : Db) (now : Int) : List AnnotatedPost :=
  annotateAll db ((db.posts.filter (publicVisible db now)).insertionSort newestFirst)

/-- The Comment.Meta default ordering: ascending created_at. -/
def createdAsc (a b : Comment) : Prop :=
  a.created_at ≤ b.created_at

instance : DecidableRel createdAsc :=
  fun a b => inferInstanceAs (Decidable (a.created_at ≤ b.created_at))

instance : IsTotal Comment createdAsc :=
  ⟨fun a b => le_total a.created_at b.created_at⟩

instance : IsTrans Comment createdAsc :=
  ⟨fun _ _ _ h1 h2 => le_trans h1 h2⟩

/-- The post.comments related manager as used by PostDetailView: the comments
of a post, returned in the Comment.Meta default ordering, ascending
created_at. -/
def commentThread (db : Db) (pid : Nat) : List Comment :=
  (db.comments.filter (fun c => c.post == pid)).insertionSort createdAsc

/-- Outcome of PostDetailView for a given request. success carries the post and
the comment thread handed to the template; crash records the unhandled
AttributeError raised by evaluating post.category.is_published when
post.category is None. -/
inductive DetailResult where
  | success (p : Post) (comments : List Comment)
  | notFound
  | crash
deriving DecidableEq

/-- PostDetailView.dispatch and get_context_data (views.py). The post is
fetched by id from the unfiltered accessor; the author always passes;
otherwise the inline condition is_published and pub_date <= now and
category.is_published is evaluated with Python short-circuiting, so a null
category is only dereferenced (and only crashes) when the two earlier
conjuncts hold. -/
def postDetail (db : Db) (v : Viewer) (now : Int) (post_id : Nat) : DetailResult :=
  match findPost db post_id with
  | none => DetailResult.notFound
  | some p =>
    if viewerIsAuthor v p.author then
      DetailResult.success p (commentThread db p.id)
    else if p.is_published && decide (p.pub_date ≤ now) then
      match p.category with
      | none => DetailResult.crash
      | some cid =>
        match findCategory db cid with
        | none => DetailResult.crash
        | some c =>
          if c.is_published then DetailResult.success p (commentThread db p.id)
          else DetailResult.notFound
    else DetailResult.notFound

/-- get_object_or_404(Category, slug=..., is_published=True) of
CategoryPostsListView.get_context_data. -/
def lookupPublishedCategory (db : Db) (slug : String) : Option Category :=
  db.categories.find? (fun c => c.slug == slug && c.is_published)

/-- The category__slug join condition of CategoryPostsListView.get_queryset. -/
def postHasCategorySlug (db : Db) (p : Post) (slug : String) : Bool :=
  match p.category with
  | some cid =>
    match findCategory db cid with
    | some c => c.slug == slug
    | none => false
  | none => false

/-- Outcome of a list view: the annotated rows, or a 404. -/
inductive FeedResult where
  | ok (posts : List AnnotatedPost)
  | notFound
deriving DecidableEq

/-- CategoryPostsListView: the public queryset restricted to the slug, guarded
by the 404 on a missing or unpublished category. -/
def categoryFeed (db : Db) (now : Int) (slug : String) : FeedResult :=
  match lookupPublishedCategory db slug with
  | none => FeedResult.notFound
  | some _ =>
    FeedResult.ok ((publicQueryset db now).filter
      (fun ap => postHasCategorySlug db ap.post slug))

/-- The author__username join condition of ProfileListView.get_queryset. -/
def authorUsernameIs (db : Db) (p : Post) (username : String) : Bool :=
  match p.author with
  | some aid =>
    match findUser db aid with
    | some u => u.username == username
    | none => false
  | none => false

/-- ProfileListView.get_queryset: the profile owner's posts, newest first with
comment counts; the public visibility filter is added exactly when the
request user's username differs from the username in the URL. -/
def profileQueryset (db : Db) (v : Viewer) (now : Int) (username : String) :
    List AnnotatedPost :=
  annotateAll db
    ((if viewerUsername db v == username then
        db.posts.filter (fun p => authorUsernameIs db p username)
      else
        (db.posts.filter (fun p => authorUsernameIs db p username)).filter
          (publicVisible db now)).insertionSort newestFirst)

/-- Modelled from the spec: the PublishedModel base class lives in core.models,
outside the blog app sources; it supplies the is_published column whose default
a newly created post takes when the form omits the field. -/
def defaultIsPublished : Bool := true

/-- The fields PostForm accepts: everything on Post except author and
is_published (forms.py excludes exactly those two). -/
structure PostFormData where
  title : String
  text : String
  pub_date : Int
  category : Option Nat
  location : Option Nat
  image : Option String
deriving DecidableEq

/-- PostForm validation: title required with max_length 256, text required,
category required (the model column is null=True but not blank=True, so the
form demands a choice) and must name an existing category, location optional
(blank=True) but must exist when given, image optional. -/
def postFormValid (db : Db) (d : PostFormData) : Bool :=
  decide (0 < d.title.length) && decide (d.title.length ≤ 256)
  && decide (0 < d.text.length)
  && (match d.category with
      | some cid => (findCategory db cid).isSome
      | none => false)
  && (match d.location with
      | some lid => (findLocation db lid).isSome
      | none => true)

/-- CommentForm validation: the single text field is required and the model
column Comment.text carries max_length=120. -/
def commentFormValid (text : String) : Bool :=
  decide (0 < text.length) && decide (text.length ≤ 120)

/-- UserForm validation: username required (other fields may be blank). -/
def userFormValid (d : User) : Bool :=
  decide (0 < d.username.length)

/-- Applying a bound PostForm to an existing row on update: every form field
overwrites the column; author and is_published are untouched. -/
def applyPostForm (p : Post) (d : PostFormData) : Post :=
  { p with
    title := d.title
    text := d.text
    pub_date := d.pub_date
    category := d.category
    location := d.location
    image := d.image }

/-- Outcome of PostCreateView: the created row and resulting store, a form
error (store unchanged), or the login redirect of LoginRequiredMixin. -/
inductive PostCreateResult where
  | created (db : Db) (p : Post)
  | invalidForm (db : Db)
  | redirectToLogin (db : Db)
deriving DecidableEq

/-- The row a valid PostForm saves: the form fields, the author set to the
request user by form_valid, and is_published at the model default because the
form excludes it. -/
def newPostFromForm (db : Db) (uid : Nat) (now : Int) (d : PostFormData) : Post :=
  { id := db.nextPostId
    title := d.title
    text := d.text
    pub_date := d.pub_date
    author := some uid
    category := d.category
    location := d.location
    image := d.image
    is_published := defaultIsPublished
    created_at := now }

/-- The store after a valid post creation: the new row appended. -/
def dbAfterPostCreate (db : Db) (uid : Nat) (now : Int) (d : PostFormData) : Db :=
  { db with
    posts := db.posts ++ [newPostFromForm db uid now d]
    nextPostId := db.nextPostId + 1 }

/-- PostCreateView: LoginRequiredMixin turns anonymous requests to the login
redirect; form_valid sets instance.author to the request user before saving;
is_published is not on the form and takes the model default. -/
def postCreate (db : Db) (v : Viewer) (now : Int) (d : PostFormData) :
    PostCreateResult :=
  match v with
  | Viewer.anonymous => PostCreateResult.redirectToLogin db
  | Viewer.user uid =>
    if postFormValid db d then
      PostCreateResult.created (dbAfterPostCreate db uid now d)
        (newPostFromForm db uid now d)
    else PostCreateResult.invalidForm db

/-- Outcome of an update or delete view. Every constructor carries the
resulting store, so an unchanged store is visible in the result. -/
inductive MutResult where
  | done (db : Db)
  | invalidForm (db : Db)
  | redirectToPost (db : Db) (post_id : Nat)
  | redirectToLogin (db : Db)
  | notFound (db : Db)
deriving DecidableEq

/-- PostUpdateView. Its bases are (PostMixin, PostReverseMixin,
LoginRequiredMixin, UpdateView), so PostMixin.dispatch runs first: 404 on a
missing post, then the soft-deny redirect to the post detail page whenever
post.author != request.user; only afterwards does LoginRequiredMixin check
authentication. -/
def postUpdate (db : Db) (v : Viewer) (post_id : Nat) (d : PostFormData) :
    MutResult :=
  match findPost db post_id with
  | none => MutResult.notFound db
  | some p =>
    if viewerIsAuthor v p.author then
      match v with
      | Viewer.anonymous => MutResult.redirectToLogin db
      | Viewer.user _ =>
        if postFormValid db d then
          MutResult.done { db with
            posts := db.posts.map
              (fun q => if q.id == post_id then applyPostForm q d else q) }
        else MutResult.invalidForm db
    else MutResult.redirectToPost db post_id

/-- PostDeleteView, with the same dispatch order as PostUpdateView; deleting a
post cascades to its comments (the Comment.post FK is on_delete=CASCADE). -/
def postDelete (db : Db) (v : Viewer) (post_id : Nat) : MutResult :=
  match findPost db post_id with
  | none => MutResult.notFound db
  | some p =>
    if viewerIsAuthor v p.author then
      match v with
      | Viewer.anonymous => MutResult.redirectToLogin db
      | Viewer.user _ =>
        MutResult.done { db with
          posts := db.posts.filter (fun q => !(q.id == post_id))
          comments := db.comments.filter (fun c => !(c.post == post_id)) }
    else MutResult.redirectToPost db post_id

/-- CommentUpdateView. CommentMixin.dispatch runs before LoginRequiredMixin:
404 on a missing comment, then the soft-deny redirect whenever
comment.author != request.user. The redirect goes to the post_id taken from
the request URL (self.kwargs), not to the comment's own post column. -/
def commentUpdate (db : Db) (v : Viewer) (post_id comment_id : Nat)
    (text : String) : MutResult :=
  match findComment db comment_id with
  | none => MutResult.notFound db
  | some c =>
    if viewerIsUser v c.author then
      match v with
      | Viewer.anonymous => MutResult.redirectToLogin db
      | Viewer.user _ =>
        if commentFormValid text then
          MutResult.done { db with
            comments := db.comments.map
              (fun q => if q.id == comment_id then { q with text := text } else q) }
        else MutResult.invalidForm db
    else MutResult.redirectToPost db post_id

/-- CommentDeleteView, with the same dispatch order as CommentUpdateView. -/
def commentDelete (db : Db) (v : Viewer) (post_id comment_id : Nat) : MutResult :=
  match findComment db comment_id with
  | none => MutResult.notFound db
  | some c =>
    if viewerIsUser v c.author then
      match v with
      | Viewer.anonymous => MutResult.redirectToLogin db
      | Viewer.user _ =>
        MutResult.done { db with
          comments := db.comments.filter (fun q => !(q.id == comment_id)) }
    else MutResult.redirectToPost db post_id

/-- Outcome of CommentCreateView. -/
inductive CommentCreateResult where
  | created (db : Db) (c : Comment)
  | invalidForm (db : Db)
  | redirectToLogin (db : Db)
  | notFound (db : Db)
deriving DecidableEq

/-- CommentCreateView: its own dispatch runs get_object_or_404(Post, pk) on
the unfiltered accessor (existence only, no visibility condition), then
LoginRequiredMixin checks authentication; form_valid sets author to the
request user and post to the fetched post. -/
def commentCreate (db : Db) (v : Viewer) (now : Int) (post_id : Nat)
    (text : String) : CommentCreateResult :=
  match findPost db post_id with
  | none => CommentCreateResult.notFound db
  | some _ =>
    match v with
    | Viewer.anonymous => CommentCreateResult.redirectToLogin db
    | Viewer.user uid =>
      if commentFormValid text then
        let c : Comment := { id := db.nextCommentId
                             text := text
                             post := post_id
                             author := uid
                             created_at := now }
        CommentCreateResult.created
          { db with
            comments := db.comments ++ [c]
            nextCommentId := db.nextCommentId + 1 } c
      else CommentCreateResult.invalidForm db

/-- Outcome of ProfileUpdateView. -/
inductive ProfileResult where
  | done (db : Db)
  | invalidForm (db : Db)
  | notFound (db : Db)
deriving DecidableEq

/-- ProfileUpdateView: its own dispatch runs get_object_or_404(User,
id=request.user.pk) before LoginRequiredMixin; an anonymous request has pk
None, which matches no row, so the dispatch raises 404 rather than reaching
the login redirect. The edited object is always request.user. -/
def profileUpdate (db : Db) (v : Viewer) (d : User) : ProfileResult :=
  match v with
  | Viewer.anonymous => ProfileResult.notFound db
  | Viewer.user uid =>
    match findUser db uid with
    | none => ProfileResult.notFound db
    | some _ =>
      if userFormValid d then
        ProfileResult.done { db with
          users := db.users.map (fun w =>
            if w.id == uid then
              { w with
                username := d.username
                first_name := d.first_name
                last_name := d.last_name
                email := d.email }
            else w) }
      else ProfileResult.invalidForm db

/-! ## Concrete fixtures

A small store used by the concrete witnesses and counterexamples below.
The reference time in the concrete statements is 100. -/

def alice : User :=
  { id := 1
    username := "alice"
    first_name := "A"
    last_name := "L"
    email := "a@x.io" }

def bob : User :=
  { id := 2
    username := "bob"
    first_name := "B"
    last_name := "M"
    email := "b@x.io" }

def catTech : Category :=
  { id := 1
    title := "Tech"
    description := "d"
    slug := "tech"
    is_published := true
    created_at := 0 }

def catDraft : Category :=
  { id := 2
    title := "Draft"
    description := "d"
    slug := "draftcat"
    is_published := false
    created_at := 0 }

def locHome : Location :=
  { id := 1
    name := "Home"
    is_published := true
    created_at := 0 }

/-- A post that is publicly visible at time 100. -/
def post1 : Post :=
  { id := 1
    title := "one"
    text := "t1"
    pub_date := 10
    author := some 1
    category := some 1
    location := some 1
    image := none
    is_published := true
    created_at := 0 }

/-- A post whose pub_date is exactly the reference time 100. -/
def post2 : Post :=
  { id := 2
    title := "two"
    text := "t2"
    pub_date := 100
    author := some 1
    category := some 1
    location := none
    image := none
    is_published := true
    created_at := 0 }

/-- A published, past-dated post whose category reference is null. -/
def post3 : Post :=
  { id := 3
    title := "three"
    text := "t3"
    pub_date := 10
    author := some 1
    category := none
    location := none
    image := none
    is_published := true
    created_at := 0 }

/-- A published, past-dated post in the unpublished category. -/
def post4 : Post :=
  { id := 4
    title := "four"
    text := "t4"
    pub_date := 10
    author := some 1
    category := some 2
    location := none
    image := none
    is_published := true
    created_at := 0 }

/-- An unpublished post. -/
def post5 : Post :=
  { id := 5
    title := "five"
    text := "t5"
    pub_date := 10
    author := some 1
    category := some 1
    location := none
    image := none
    is_published := false
    created_at := 0 }

/-- A visible post by bob. -/
def post7 : Post :=
  { id := 7
    title := "seven"
    text := "t7"
    pub_date := 20
    author := some 2
    category := some 1
    location := none
    image := none
    is_published := true
    created_at := 0 }

/-- A comment by alice on post 5. -/
def comment1 : Comment :=
  { id := 1
    text := "hi"
    post := 5
    author := 1
    created_at := 40 }

/-- A later comment on post 1. -/
def comment2 : Comment :=
  { id := 2
    text := "second"
    post := 1
    author := 2
    created_at := 50 }

/-- An earlier comment on post 1, stored after the later one. -/
def comment3 : Comment :=
  { id := 3
    text := "first"
    post := 1
    author := 1
    created_at := 30 }

/-- A 121-character comment text, one character over the limit. -/
def longText : String := String.mk (List.replicate 121 'a')

/-- A valid post form submission against the sample store. -/
def sampleForm : PostFormData :=
  { title := "new"
    text := "body"
    pub_date := 60
    category := some 1
    location := none
    image := none }

def sampleDb : Db :=
  { users := [alice, bob]
    categories := [catTech, catDraft]
    locations := [locHome]
    posts := [post1, post2, post3, post4, post5, post7]
    comments := [comment1, comment2, comment3]
    nextPostId := 8
    nextCommentId := 4 }

/-! ## Queryset helper lemmas -/

theorem mem_annotateAll (db : Db) (l : List Post) (p : Post) :
    (∃ ap ∈ annotateAll db l, ap.post = p) ↔ p ∈ l := by
  constructor
  · rintro ⟨ap, hap, hpost⟩
    rw [annotateAll, List.mem_map] at hap
    obtain ⟨q, hq, hfq⟩ := hap
    cases hfq
    cases hpost
    exact hq
  · intro hp
    exact ⟨{ post := p, comment_count := postCommentCount db p.id },
      List.mem_map_of_mem _ hp, rfl⟩

theorem annotateAll_pairwise (db : Db) (l : List Post) (R : Post → Post → Prop)
    (h : l.Pairwise R) :
    (annotateAll db l).Pairwise (fun a b => R a.post b.post) := by
  rw [annotateAll, List.pairwise_map]
  exact h

theorem annotateAll_counts (db : Db) (l : List Post) :
    ∀ ap ∈ annotateAll db l, ap.comment_count = postCommentCount db ap.post.id := by
  intro ap hap
  rw [annotateAll, List.mem_map] at hap
  obtain ⟨q, _, hfq⟩ := hap
  cases hfq
  rfl

theorem mem_publicQueryset (db : Db) (now : Int) (p : Post) (hp : p ∈ db.posts) :
    (∃ ap ∈ publicQueryset db now, ap.post = p) ↔ publicVisible db now p = true := by
  rw [publicQueryset, mem_annotateAll,
    (List.perm_insertionSort newestFirst _).mem_iff, List.mem_filter]
  simp [hp]

theorem publicQueryset_sorted (db : Db) (now : Int) :
    (publicQueryset db now).Pairwise (fun a b => b.post.pub_date ≤ a.post.pub_date) :=
  annotateAll_pairwise db _ newestFirst
    (List.sorted_insertionSort newestFirst _)

theorem publicQueryset_counts (db : Db) (now : Int) :
    ∀ ap ∈ publicQueryset db now, ap.comment_count = postCommentCount db ap.post.id :=
  annotateAll_counts db _

/-! ## C1: the public listing -/

/-- C1 (amended): a stored post appears in the public listing iff it is
published, its category is published, and its pub_date is STRICTLY before the
current time; the listing is ordered newest first by pub_date and every row
carries its comment count. -/
theorem public_listing_characterization (db : Db) (now : Int) (p : Post)
    (hp : p ∈ db.posts) :
    ((∃ ap ∈ publicQueryset db now, ap.post = p) ↔ publicVisible db now p = true)
    ∧ (publicQueryset db now).Pairwise (fun a b => b.post.pub_date ≤ a.post.pub_date)
    ∧ ∀ ap ∈ publicQueryset db now, ap.comment_count = postCommentCount db ap.post.id :=
  ⟨mem_publicQueryset db now p hp, publicQueryset_sorted db now,
    publicQueryset_counts db now⟩

/-- C1 witness: in the sample store at time 100, the visible post 1 does
appear in the public listing. -/
theorem public_listing_characterization_witness :
    ∃ ap ∈ publicQueryset sampleDb 100, ap.post = post1 :=
  (public_listing_characterization sampleDb 100 post1 (by decide)).1.mpr (by decide)

/-- C1 counterexample: post 2 has pub_date exactly equal to the current time
100, so the predicate of the claim (pub_date at or before now) holds for it,
yet the public listing excludes it: the code filters with
pub_date__lt=timezone.now(), a strict inequality. -/
theorem public_listing_boundary_counterexample :
    specPublicVisible sampleDb 100 post2 = true
    ∧ post2 ∈ sampleDb.posts
    ∧ (publicQueryset sampleDb 100).all (fun ap => !(ap.post.id == post2.id)) = true := by
  decide

/-! ## C2: the post detail view -/

/-- C2 (code bug, exhibited): post 3 is published, past-dated, has a null
category, and is requested by bob, who is not its author; the claim (and the
error-handling section of the spec) says this request fails with NotFound,
but the view evaluates post.category.is_published on a null category and
crashes with an unhandled AttributeError instead. -/
theorem post_detail_null_category_crash :
    post3.category = none
    ∧ post3.is_published = true
    ∧ post3.pub_date ≤ 100
    ∧ viewerIsAuthor (Viewer.user 2) post3.author = false
    ∧ postDetail sampleDb (Viewer.user 2) 100 3 = DetailResult.crash := by
  decide

/-! ## C3: the ownership soft-deny -/

/-- C3 (amended): an update or delete attempt on a post or comment by a
viewer who is not its author leaves the store unchanged and redirects to a
post detail page; for a post that post itself, for a comment the post id
taken from the request URL, which the code does not check against the
comment's own post reference. -/
theorem ownership_soft_deny (db : Db) (v : Viewer) (pid cid : Nat)
    (d : PostFormData) (t : String) (p : Post) (c : Comment)
    (hp : findPost db pid = some p) (hpv : viewerIsAuthor v p.author = false)
    (hc : findComment db cid = some c) (hcv : viewerIsUser v c.author = false) :
    postUpdate db v pid d = MutResult.redirectToPost db pid
    ∧ postDelete db v pid = MutResult.redirectToPost db pid
    ∧ commentUpdate db v pid cid t = MutResult.redirectToPost db pid
    ∧ commentDelete db v pid cid = MutResult.redirectToPost db pid := by
  refine ⟨?_, ?_, ?_, ?_⟩ <;>
    simp [postUpdate, postDelete, commentUpdate, commentDelete, hp, hc, hpv, hcv]

/-- C3 witness: bob attempts all four mutations on alice's post 5 and alice's
comment 1; every attempt is turned into the redirect with the store intact. -/
theorem ownership_soft_deny_witness :
    postUpdate sampleDb (Viewer.user 2) 5 sampleForm = MutResult.redirectToPost sampleDb 5
    ∧ postDelete sampleDb (Viewer.user 2) 5 = MutResult.redirectToPost sampleDb 5
    ∧ commentUpdate sampleDb (Viewer.user 2) 5 1 "x" = MutResult.redirectToPost sampleDb 5
    ∧ commentDelete sampleDb (Viewer.user 2) 5 1 = MutResult.redirectToPost sampleDb 5 :=
  ownership_soft_deny sampleDb (Viewer.user 2) 5 1 sampleForm "x" post5 comment1
    (by decide) (by decide) (by decide) (by decide)

/-- C3 counterexample: comment 1 is a comment on post 5, but bob's denied
edit of it through a URL naming post 7 redirects to post 7, not to the post
referenced by the comment. -/
theorem comment_redirect_ignores_comment_post :
    (findComment sampleDb 1).map Comment.post = some 5
    ∧ commentUpdate sampleDb (Viewer.user 2) 7 1 "x" = MutResult.redirectToPost sampleDb 7
    ∧ commentUpdate sampleDb (Viewer.user 2) 7 1 "x" ≠ MutResult.redirectToPost sampleDb 5 := by
  decide

/-! ## C4: unauthenticated access -/

/-- C4 (amended): anonymous create-post and create-comment requests are
redirected to login, but anonymous update and delete requests on an existing
post or comment hit the ownership mixin first (it precedes LoginRequiredMixin
in the view bases) and are soft-deny redirected to the post detail page, and
an anonymous profile update fails with NotFound because its dispatch looks up
a user with pk None before the login check. -/
theorem unauthenticated_requests (db : Db) (pid cid : Nat) (d : PostFormData)
    (u : User) (t : String) (now : Int) (p : Post) (c : Comment)
    (hp : findPost db pid = some p) (hc : findComment db cid = some c) :
    postCreate db Viewer.anonymous now d = PostCreateResult.redirectToLogin db
    ∧ commentCreate db Viewer.anonymous now pid t = CommentCreateResult.redirectToLogin db
    ∧ postUpdate db Viewer.anonymous pid d = MutResult.redirectToPost db pid
    ∧ postDelete db Viewer.anonymous pid = MutResult.redirectToPost db pid
    ∧ commentUpdate db Viewer.anonymous pid cid t = MutResult.redirectToPost db pid
    ∧ commentDelete db Viewer.anonymous pid cid = MutResult.redirectToPost db pid
    ∧ profileUpdate db Viewer.anonymous u = ProfileResult.notFound db := by
  refine ⟨rfl, ?_, ?_, ?_, ?_, ?_, rfl⟩ <;>
    simp [commentCreate, postUpdate, postDelete, commentUpdate, commentDelete,
      viewerIsAuthor, viewerIsUser, hp, hc]

/-- C4 witness: the anonymous behavior of every protected operation on the
sample store. -/
theorem unauthenticated_requests_witness :
    postCreate sampleDb Viewer.anonymous 100 sampleForm = PostCreateResult.redirectToLogin sampleDb
    ∧ commentCreate sampleDb Viewer.anonymous 100 1 "x" = CommentCreateResult.redirectToLogin sampleDb
    ∧ postUpdate sampleDb Viewer.anonymous 1 sampleForm = MutResult.redirectToPost sampleDb 1
    ∧ postDelete sampleDb Viewer.anonymous 1 = MutResult.redirectToPost sampleDb 1
    ∧ commentUpdate sampleDb Viewer.anonymous 1 1 "x" = MutResult.redirectToPost sampleDb 1
    ∧ commentDelete sampleDb Viewer.anonymous 1 1 = MutResult.redirectToPost sampleDb 1
    ∧ profileUpdate sampleDb Viewer.anonymous alice = ProfileResult.notFound sampleDb :=
  unauthenticated_requests sampleDb 1 1 sampleForm alice "x" 100 post1 comment1
    (by decide) (by decide)

/-- C4 counterexample: an anonymous attempt to edit post 1 is not redirected
to login: it is soft-deny redirected to the detail view of post 1. -/
theorem unauthenticated_update_redirects_to_detail :
    postUpdate sampleDb Viewer.anonymous 1 sampleForm = MutResult.redirectToPost sampleDb 1
    ∧ postUpdate sampleDb Viewer.anonymous 1 sampleForm ≠ MutResult.redirectToLogin sampleDb := by
  decide

/-! ## C5: the category feed -/

/-- C5: the category feed 404s exactly when every stored category carrying the
requested slug is unpublished (in particular when no category has the slug);
otherwise the rows it returns are exactly the stored posts that pass the
public visibility condition and whose category carries the slug. -/
theorem category_feed_spec (db : Db) (now : Int) (slug : String) :
    (categoryFeed db now slug = FeedResult.notFound ↔
      ∀ c ∈ db.categories, c.slug = slug → c.is_published = false)
    ∧ ∀ l, categoryFeed db now slug = FeedResult.ok l →
        ∀ p ∈ db.posts,
          ((∃ ap ∈ l, ap.post = p) ↔
            (publicVisible db now p = true ∧ postHasCategorySlug db p slug = true)) := by
  constructor
  · rw [categoryFeed]
    cases hfind : lookupPublishedCategory db slug with
    | none =>
      simp only [true_iff]
      rw [lookupPublishedCategory, List.find?_eq_none] at hfind
      intro c hcmem hcslug
      have hnc := hfind c hcmem
      simp [hcslug] at hnc
      exact hnc
    | some c =>
      simp only [reduceCtorEq, false_iff]
      intro hall
      rw [lookupPublishedCategory] at hfind
      have hpc := List.find?_some hfind
      have hcmem := List.mem_of_find?_eq_some hfind
      simp only [Bool.and_eq_true, beq_iff_eq] at hpc
      have := hall c hcmem hpc.1
      rw [this] at hpc
      exact Bool.false_ne_true hpc.2
  · intro l hl p hp
    rw [categoryFeed] at hl
    cases hfind : lookupPublishedCategory db slug with
    | none => rw [hfind] at hl; cases hl
    | some c =>
      rw [hfind] at hl
      cases hl
      constructor
      · rintro ⟨ap, hap, rfl⟩
        rw [List.mem_filter] at hap
        exact ⟨((mem_publicQueryset db now ap.post hp).mp ⟨ap, hap.1, rfl⟩), hap.2⟩
      · rintro ⟨hvis, hslug⟩
        obtain ⟨ap, hap, hap2⟩ := (mem_publicQueryset db now p hp).mpr hvis
        refine ⟨ap, ?_, hap2⟩
        rw [List.mem_filter]
        refine ⟨hap, ?_⟩
        rw [hap2]
        exact hslug

/-- C5 witness: the sample store has no published category with slug draftcat
(it exists but is unpublished), so that feed 404s for every viewer even though
post 4 in it is otherwise eligible; the feed of the published slug tech
contains post 1. -/
theorem category_feed_spec_witness :
    categoryFeed sampleDb 100 "draftcat" = FeedResult.notFound
    ∧ ∀ l, categoryFeed sampleDb 100 "tech" = FeedResult.ok l →
        ∃ ap ∈ l, ap.post = post1 :=
  ⟨(category_feed_spec sampleDb 100 "draftcat").1.mpr (by decide),
    fun l hl => ((category_feed_spec sampleDb 100 "tech").2 l hl post1
      (by decide)).mpr (by decide)⟩

/-! ## C6: the profile listing -/

theorem mem_profileQueryset (db : Db) (v : Viewer) (now : Int)
    (username : String) (p : Post) (hp : p ∈ db.posts) :
    (∃ ap ∈ profileQueryset db v now username, ap.post = p) ↔
      (authorUsernameIs db p username = true ∧
        (viewerUsername db v = username ∨ publicVisible db now p = true)) := by
  rw [profileQueryset]
  by_cases hown : viewerUsername db v = username
  · rw [if_pos (by simp [hown])]
    rw [mem_annotateAll, (List.perm_insertionSort newestFirst _).mem_iff,
      List.mem_filter]
    simp [hp, hown]
  · rw [if_neg (by simp [hown])]
    rw [mem_annotateAll, (List.perm_insertionSort newestFirst _).mem_iff,
      List.mem_filter, List.mem_filter]
    simp [hp, hown, and_assoc]

/-- C6: the profile listing shows all of the owner's posts when the request
user's username is the owner's, and only the publicly visible ones otherwise;
in both cases rows are ordered newest first by pub_date and carry comment
counts. -/
theorem profile_listing_spec (db : Db) (v : Viewer) (now : Int) (u : User)
    (hu : u ∈ db.users) :
    (viewerUsername db v = u.username →
      ∀ p ∈ db.posts,
        ((∃ ap ∈ profileQueryset db v now u.username, ap.post = p) ↔
          authorUsernameIs db p u.username = true))
    ∧ (viewerUsername db v ≠ u.username →
      ∀ p ∈ db.posts,
        ((∃ ap ∈ profileQueryset db v now u.username, ap.post = p) ↔
          (authorUsernameIs db p u.username = true ∧ publicVisible db now p = true)))
    ∧ (profileQueryset db v now u.username).Pairwise
        (fun a b => b.post.pub_date ≤ a.post.pub_date)
    ∧ ∀ ap ∈ profileQueryset db v now u.username,
        ap.comment_count = postCommentCount db ap.post.id := by
  refine ⟨?_, ?_, ?_, ?_⟩
  · intro hown p hp
    rw [mem_profileQueryset db v now u.username p hp]
    simp [hown]
  · intro hother p hp
    rw [mem_profileQueryset db v now u.username p hp]
    simp [hother]
  · exact annotateAll_pairwise db _ newestFirst
      (List.sorted_insertionSort newestFirst _)
  · exact annotateAll_counts db _

/-- C6 witness: alice sees her own unpublished post 5 on her profile, while
bob does not see it on her profile. -/
theorem profile_listing_spec_witness :
    (∃ ap ∈ profileQueryset sampleDb (Viewer.user 1) 100 "alice", ap.post = post5)
    ∧ ¬ (∃ ap ∈ profileQueryset sampleDb (Viewer.user 2) 100 "alice", ap.post = post5) :=
  ⟨((profile_listing_spec sampleDb (Viewer.user 1) 100 alice (by decide)).1
      (by decide) post5 (by decide)).mpr (by decide),
    fun hmem =>
      absurd (((profile_listing_spec sampleDb (Viewer.user 2) 100 alice
        (by decide)).2.1 (by decide) post5 (by decide)).mp hmem) (by decide)⟩

/-! ## C7: comment thread ordering -/

/-- C7: whenever the detail view succeeds, the comment thread it hands to the
template is in non-decreasing created_at order. -/
theorem comment_thread_sorted (db : Db) (v : Viewer) (now : Int) (pid : Nat)
    (p : Post) (cs : List Comment)
    (h : postDetail db v now pid = DetailResult.success p cs) :
    cs.Pairwise (fun a b => a.created_at ≤ b.created_at) := by
  rw [postDetail] at h
  cases hf : findPost db pid with
  | none =>
    rw [hf] at h
    cases h
  | some q =>
    rw [hf] at h
    dsimp only at h
    have key : ∀ r : Nat,
        (commentThread db r).Pairwise (fun a b => a.created_at ≤ b.created_at) :=
      fun r => List.sorted_insertionSort createdAsc _
    by_cases ha : viewerIsAuthor v q.author = true
    · rw [if_pos ha] at h
      cases h
      exact key _
    · rw [if_neg ha] at h
      by_cases hb : (q.is_published && decide (q.pub_date ≤ now)) = true
      · rw [if_pos hb] at h
        cases hcat : q.category with
        | none => rw [hcat] at h; cases h
        | some cid =>
          rw [hcat] at h
          dsimp only at h
          cases hfc : findCategory db cid with
          | none => rw [hfc] at h; cases h
          | some cat =>
            rw [hfc] at h
            dsimp only at h
            by_cases hcp : cat.is_published = true
            · rw [if_pos hcp] at h
              cases h
              exact key _
            · rw [if_neg hcp] at h
              cases h
      · rw [if_neg hb] at h
        cases h

/-- C7 witness: bob opens post 1; the two comments stored on it out of order
come back ascending by created_at. -/
theorem comment_thread_sorted_witness :
    List.Pairwise (fun a b : Comment => a.created_at ≤ b.created_at)
      [comment3, comment2] :=
  comment_thread_sorted sampleDb (Viewer.user 2) 100 1 post1 [comment3, comment2]
    (by decide)

/-! ## C8: overlong comment text -/

/-- C8: a comment-creation attempt whose text exceeds 120 characters never
inserts a row, and when the target post exists and the request is
authenticated it is a form validation failure that leaves the store
unchanged. -/
theorem long_comment_rejected (db : Db) (v : Viewer) (now : Int) (pid : Nat)
    (text : String) (hlen : 120 < text.length) :
    (∀ db2 c, commentCreate db v now pid text ≠ CommentCreateResult.created db2 c)
    ∧ (∀ uid p, findPost db pid = some p →
        commentCreate db (Viewer.user uid) now pid text =
          CommentCreateResult.invalidForm db) := by
  have hval : commentFormValid text = false := by
    rw [commentFormValid]
    simp [Nat.not_le.mpr hlen]
  constructor
  · intro db2 c
    rw [commentCreate.eq_def]
    cases hf : findPost db pid with
    | none => simp
    | some q =>
      cases v with
      | anonymous => simp
      | user uid => simp [hval]
  · intro uid p hp
    rw [commentCreate.eq_def, hp]
    simp [hval]

/-- C8 witness: bob posts the 121-character text on post 5; the attempt is a
validation failure and the store comes back unchanged. -/
theorem long_comment_rejected_witness :
    commentCreate sampleDb (Viewer.user 2) 100 5 longText =
      CommentCreateResult.invalidForm sampleDb :=
  (long_comment_rejected sampleDb (Viewer.user 2) 100 5 longText (by decide)).2
    2 post5 (by decide)

/-! ## C9: post creation round trip -/

/-- C9: creating a post through the form as an authenticated user stores
exactly the submitted field values, sets the author to the requesting user,
leaves is_published at the model default, and an immediate detail read-back as
the author succeeds with the identical row and a comment count of zero. The
freshness hypotheses say the id counter is ahead of every stored post id and
of every comment's post reference. -/
theorem post_create_roundtrip (db : Db) (uid : Nat) (now tnow : Int)
    (d : PostFormData) (hvalid : postFormValid db d = true)
    (hpostids : ∀ q ∈ db.posts, q.id < db.nextPostId)
    (hcommentids : ∀ c ∈ db.comments, c.post < db.nextPostId) :
    ∃ db2 p,
      postCreate db (Viewer.user uid) now d = PostCreateResult.created db2 p
      ∧ p.title = d.title ∧ p.text = d.text ∧ p.pub_date = d.pub_date
      ∧ p.category = d.category ∧ p.location = d.location ∧ p.image = d.image
      ∧ p.author = some uid ∧ p.is_published = defaultIsPublished
      ∧ postDetail db2 (Viewer.user uid) tnow p.id = DetailResult.success p []
      ∧ postCommentCount db2 p.id = 0 := by
  have hfilter : (dbAfterPostCreate db uid now d).comments.filter
      (fun c => c.post == (newPostFromForm db uid now d).id) = [] := by
    rw [List.filter_eq_nil_iff]
    intro c hc
    have hlt := hcommentids c hc
    simp only [newPostFromForm, beq_iff_eq]
    omega
  refine ⟨dbAfterPostCreate db uid now d, newPostFromForm db uid now d,
    by simp [postCreate, hvalid], rfl, rfl, rfl, rfl, rfl, rfl, rfl, rfl, ?_, ?_⟩
  · have hfp : findPost (dbAfterPostCreate db uid now d)
        (newPostFromForm db uid now d).id = some (newPostFromForm db uid now d) := by
      rw [findPost]
      show (db.posts ++ [newPostFromForm db uid now d]).find? _ = _
      rw [List.find?_append]
      have h1 : db.posts.find?
          (fun q => q.id == (newPostFromForm db uid now d).id) = none := by
        rw [List.find?_eq_none]
        intro q hq
        have hlt := hpostids q hq
        simp only [newPostFromForm, beq_iff_eq]
        omega
      rw [h1]
      simp [newPostFromForm]
    have hthread : commentThread (dbAfterPostCreate db uid now d)
        (newPostFromForm db uid now d).id = [] := by
      rw [commentThread, hfilter]
      rfl
    rw [postDetail, hfp]
    dsimp only
    rw [if_pos (by simp [viewerIsAuthor, newPostFromForm]), hthread]
  · rw [postCommentCount, hfilter]
    rfl

/-- C9 witness: bob creates a post from the sample form; read back at the same
instant it shows the submitted fields, bob as author, the default publication
flag, and no comments. -/
theorem post_create_roundtrip_witness :
    ∃ db2 p,
      postCreate sampleDb (Viewer.user 2) 100 sampleForm =
        PostCreateResult.created db2 p
      ∧ p.title = sampleForm.title ∧ p.text = sampleForm.text
      ∧ p.pub_date = sampleForm.pub_date
      ∧ p.category = sampleForm.category ∧ p.location = sampleForm.location
      ∧ p.image = sampleForm.image
      ∧ p.author = some 2 ∧ p.is_published = defaultIsPublished
      ∧ postDetail db2 (Viewer.user 2) 100 p.id = DetailResult.success p []
      ∧ postCommentCount db2 p.id = 0 :=
  post_create_roundtrip sampleDb 2 100 100 sampleForm (by decide) (by decide)
    (by decide)

/-! ## C10: comment creation checks existence only -/

/-- C10: an authenticated comment creation 404s exactly when the post id
matches no stored post, and succeeds on every existing post with valid text,
with no visibility condition consulted: the created row carries the target
post id, the requesting user and the text. -/
theorem comment_creation_ignores_visibility (db : Db) (uid : Nat) (now : Int)
    (pid : Nat) (text : String) (hvalid : commentFormValid text = true) :
    (commentCreate db (Viewer.user uid) now pid text =
        CommentCreateResult.notFound db ↔ findPost db pid = none)
    ∧ ∀ p, findPost db pid = some p →
        ∃ db2 c, commentCreate db (Viewer.user uid) now pid text =
            CommentCreateResult.created db2 c
          ∧ c.post = pid ∧ c.author = uid ∧ c.text = text := by
  constructor
  · rw [commentCreate.eq_def]
    cases hf : findPost db pid with
    | none => simp
    | some q => simp [hvalid]
  · intro p hp
    rw [commentCreate.eq_def, hp]
    dsimp only
    rw [if_pos hvalid]
    exact ⟨_, _, rfl, rfl, rfl, rfl⟩

/-- C10 witness: post 5 is not publicly visible (it is unpublished), yet bob
can comment on it. -/
theorem comment_creation_ignores_visibility_witness :
    publicVisible sampleDb 100 post5 = false
    ∧ ∃ db2 c, commentCreate sampleDb (Viewer.user 2) 100 5 "hi" =
        CommentCreateResult.created db2 c
      ∧ c.post = 5 ∧ c.author = 2 ∧ c.text = "hi" :=
  ⟨by decide,
    (comment_creation_ignores_visibility sampleDb 2 100 5 "hi" (by decide)).2
      post5 (by decide)⟩

end Blogicum
